import Mathlib

/-!
Verification of the umockdev preload interception layer
(`src/libumockdev-preload.c`) against its natural-language specification.

Paths are modelled as `List Char` (C char arrays), machine integers as
`Nat`/`Int`, the filesystem and the real libc calls as explicit oracle
functions, and `errno` as an explicitly threaded `Nat`.
-/

set_option maxHeartbeats 1000000

/-! ## CPath model and string constants -/

/-- A filesystem path, as the C code's char array. -/
abbrev CPath := List Char

def devSlashS : String := "/dev/"

def devRootS : String := "/dev"

def sysSlashS : String := "/sys/"

def sysRootS : String := "/sys"

def disabledS : String := "/disabled"

/-- The byte prefix compared by `strncmp(path, "/dev/", 5)`. -/
def devSlash : CPath := devSlashS.data

/-- The exact path compared by `strcmp(path, "/dev")`. -/
def devRoot : CPath := devRootS.data

def sysSlash : CPath := sysSlashS.data

def sysRoot : CPath := sysRootS.data

/-- The sentinel marker name appended to the testbed root (`"/disabled"`). -/
def disabledName : CPath := disabledS.data

/-! ## CPath trapper (`trap_path`, lines 602-642)

`static char buf[PATH_MAX * 2]` with `PATH_MAX = 4096`. -/

/-- Size of the static shadow-path buffer: `PATH_MAX * 2`. -/
def bufSize : Nat := 8192

/-- `ENAMETOOLONG` on Linux. -/
def ENAMETOOLONG : Nat := 36

/-- Outcome of `trap_path`: `errTooLong` is the `NULL` return with
`errno = ENAMETOOLONG`; `pass` returns the original path pointer unchanged;
`redirected p` returns the static buffer holding the shadow path `p`. -/
inductive TrapResult where
  | errTooLong : TrapResult
  | pass : TrapResult
  | redirected : CPath → TrapResult
deriving DecidableEq

/-- Body of `trap_path` after the subtree dispatch: length check, then the
`<root>/disabled` marker check, then (for `/dev` paths) the shadow-existence
check.  `fs p = true` models `path_exists(p) == 0`. -/
def trap_path_core (pre : CPath) (fs : CPath → Bool) (path : CPath)
    (check_exist : Bool) : TrapResult :=
  if bufSize ≤ path.length + pre.length then TrapResult.errTooLong
  else if fs (pre ++ disabledName) then TrapResult.pass
  else if check_exist && !(fs (pre ++ path)) then TrapResult.pass
  else TrapResult.redirected (pre ++ path)

/-- `trap_path` (lines 602-642).  `root` models `getenv("UMOCKDEV_DIR")`. -/
def trap_path (root : Option CPath) (fs : CPath → Bool) (path : CPath) :
    TrapResult :=
  match root with
  | none => TrapResult.pass
  | some pre =>
    if devSlash.isPrefixOf path || path == devRoot then
      trap_path_core pre fs path true
    else if !(sysSlash.isPrefixOf path) && !(path == sysRoot) then
      TrapResult.pass
    else
      trap_path_core pre fs path false

/-- The `WRAP_1ARG`/`WRAP_2ARGS`/`WRAP_3ARGS` call shape: trap the path, on
`NULL` return the failure value with `errno = ENAMETOOLONG`, otherwise invoke
the real function (an oracle returning result and errno) on the chosen path. -/
def wrap_call (root : Option CPath) (fs : CPath → Bool) (path : CPath)
    (failret : Int) (realCall : CPath → Int × Nat) : Int × Nat :=
  match trap_path root fs path with
  | TrapResult.errTooLong => (failret, ENAMETOOLONG)
  | TrapResult.pass => realCall path
  | TrapResult.redirected p => realCall p

/-! ## fd -> pointer map (lines 104-158) -/

/-- `FD_MAP_MAX`. -/
def FD_MAP_MAX : Nat := 50

/-- One slot of an `fd_map`: parallel entries of the `set`, `fd` and `data`
arrays at a common index. -/
structure Slot (α : Type) where
  set : Bool
  fd : Int
  data : α
deriving DecidableEq

/-- `fd_map_add` (lines 111-126): store at the first unset slot; `none`
models the `abort()` on overflow. -/
def fd_map_add {α : Type} : List (Slot α) → Int → α → Option (List (Slot α))
  | [], _, _ => none
  | s :: rest, f, d =>
    if s.set = false then some ({ set := true, fd := f, data := d } :: rest)
    else (fd_map_add rest f d).map (fun l => s :: l)

/-- `fd_map_remove` (lines 128-141): clear the first set slot holding `f`;
`none` models the `abort()` when the fd is absent. -/
def fd_map_remove {α : Type} : List (Slot α) → Int → Option (List (Slot α))
  | [], _ => none
  | s :: rest, f =>
    if s.set = true ∧ s.fd = f then some ({ s with set := false } :: rest)
    else (fd_map_remove rest f).map (fun l => s :: l)

/-- `fd_map_get` (lines 143-158): `(1, data)` on the first set slot holding
`f`, else `(0, NULL)`. -/
def fd_map_get {α : Type} : List (Slot α) → Int → Bool × Option α
  | [], _ => (false, none)
  | s :: rest, f =>
    if s.set = true ∧ s.fd = f then (true, some s.data)
    else fd_map_get rest f

/-! ## Script recording: caret escaping (lines 570-580) -/

/-- Escape one recorded byte (the loop body at lines 571-580): control bytes
(below 32) become `^` (94) followed by `byte + 64`; a literal `^` (94) is
doubled; anything else is emitted verbatim. -/
def escapeByte (b : Nat) : List Nat :=
  if b < 32 then [94, b + 64]
  else if b = 94 then [94, 94]
  else [b]

/-- Escape a whole buffer, byte by byte in order. -/
def escapeBytes : List Nat → List Nat
  | [] => []
  | b :: rest => escapeByte b ++ escapeBytes rest

/-- Claim C4: in script recording, every byte below 32 is emitted as a caret
followed by the character `byte + 64`, the byte 0x5E (a literal caret) is
emitted as two carets, and every other byte is emitted verbatim; in
particular the bytes `[0x41, 0x0A, 0x5E]` produce the record-body text
`A^J^^`. -/
theorem script_escape_spec :
    (∀ b : Nat, b < 32 → escapeByte b = [94, b + 64]) ∧
    escapeByte 94 = [94, 94] ∧
    (∀ b : Nat, 32 ≤ b → b ≠ 94 → escapeByte b = [b]) ∧
    escapeBytes [65, 10, 94] = [65, 94, 74, 94, 94] := by
  refine ⟨?_, by decide, ?_, by decide⟩
  · intro b hb
    simp [escapeByte, hb]
  · intro b hb hne
    simp [escapeByte, Nat.not_lt.mpr hb, hne]

/-- Witness for C4: the three escape shapes evaluated at the concrete bytes
10, 94 and 65. -/
theorem script_escape_spec_witness :
    (10 < 32 ∧ escapeByte 10 = [94, 74]) ∧
    (32 ≤ 65 ∧ 65 ≠ 94 ∧ escapeByte 65 = [65]) :=
  ⟨⟨by decide, script_escape_spec.1 10 (by decide)⟩,
   ⟨by decide, by decide,
    script_escape_spec.2.2.1 65 (by decide) (by decide)⟩⟩

/-! ## Registry round-trip (C7) -/

/-- Scan lemma for the registry round-trip: if some slot is free and the fd
is not currently found, then `add` succeeds, `get` then finds the payload,
`remove` then succeeds, and `get` finally reports the fd absent. -/
lemma fd_map_round_trip_aux {α : Type} :
    ∀ (t : List (Slot α)) (f : Int) (p : α),
      (∃ s ∈ t, s.set = false) → (fd_map_get t f).1 = false →
      ∃ t1 t2, fd_map_add t f p = some t1 ∧
        fd_map_get t1 f = (true, some p) ∧
        fd_map_remove t1 f = some t2 ∧
        (fd_map_get t2 f).1 = false := by
  intro t
  induction t with
  | nil =>
    intro f p hfree _
    rcases hfree with ⟨s, hs, _⟩
    simp at hs
  | cons s rest ih =>
    intro f p hfree habs
    by_cases hs : s.set = true
    · -- head slot is occupied; it cannot hold `f`
      have hfd : ¬(s.fd = f) := by
        intro heq
        have : (fd_map_get (s :: rest) f).1 = true := by
          simp [fd_map_get, hs, heq]
        rw [habs] at this
        exact Bool.false_ne_true this
      have habs2 : (fd_map_get rest f).1 = false := by
        simpa [fd_map_get, hs, hfd] using habs
      have hfree2 : ∃ s0 ∈ rest, s0.set = false := by
        rcases hfree with ⟨s0, hmem, hs0⟩
        rcases List.mem_cons.mp hmem with h | h
        · exact absurd (h ▸ hs0) (by simp [hs])
        · exact ⟨s0, h, hs0⟩
      rcases ih f p hfree2 habs2 with ⟨t1, t2, h1, h2, h3, h4⟩
      refine ⟨s :: t1, s :: t2, ?_, ?_, ?_, ?_⟩
      · simp [fd_map_add, hs, h1]
      · simp [fd_map_get, hs, hfd, h2]
      · simp [fd_map_remove, hs, hfd, h3]
      · simp [fd_map_get, hs, hfd, h4]
    · -- head slot is free: `add` claims it
      have hs0 : s.set = false := by
        cases h : s.set
        · rfl
        · exact absurd h hs
      have habs2 : (fd_map_get rest f).1 = false := by
        simpa [fd_map_get, hs0] using habs
      refine ⟨{ set := true, fd := f, data := p } :: rest,
              { set := false, fd := f, data := p } :: rest, ?_, ?_, ?_, ?_⟩
      · simp [fd_map_add, hs0]
      · simp [fd_map_get]
      · simp [fd_map_remove]
      · simp [fd_map_get, habs2]

/-- Claim C7: for every 50-slot registry table holding fewer than 50 live
entries and a descriptor not already present, `add(t, fd, p)` succeeds and
`get` then reports the descriptor present with payload `p`; after a
subsequent `remove(t, fd)`, `get` reports the descriptor absent. -/
theorem fd_map_round_trip {α : Type} (t : List (Slot α)) (f : Int) (p : α)
    (hlen : t.length = FD_MAP_MAX)
    (hcap : t.countP (fun s => s.set) < FD_MAP_MAX)
    (habs : (fd_map_get t f).1 = false) :
    ∃ t1 t2, fd_map_add t f p = some t1 ∧
      fd_map_get t1 f = (true, some p) ∧
      fd_map_remove t1 f = some t2 ∧
      (fd_map_get t2 f).1 = false := by
  apply fd_map_round_trip_aux t f p ?_ habs
  by_contra hall
  push_neg at hall
  have : t.countP (fun s => s.set) = t.length := by
    apply List.countP_eq_length.mpr
    intro a ha
    have := hall a ha
    simpa using this
  rw [hlen] at this
  omega

/-- Witness for C7: a fresh all-free 50-slot table, fd 7, payload 42. -/
theorem fd_map_round_trip_witness :
    ((List.replicate 50 (Slot.mk false 0 (0 : Nat))).length = FD_MAP_MAX ∧
     (List.replicate 50 (Slot.mk false 0 (0 : Nat))).countP
        (fun s => s.set) < FD_MAP_MAX ∧
     (fd_map_get (List.replicate 50 (Slot.mk false 0 (0 : Nat))) 7).1
        = false) ∧
    (∃ t1 t2,
      fd_map_add (List.replicate 50 (Slot.mk false 0 (0 : Nat))) 7 42
          = some t1 ∧
      fd_map_get t1 7 = (true, some 42) ∧
      fd_map_remove t1 7 = some t2 ∧
      (fd_map_get t2 7).1 = false) :=
  ⟨⟨by decide, by decide, by decide⟩,
   fd_map_round_trip (List.replicate 50 (Slot.mk false 0 (0 : Nat))) 7 42
     (by decide) (by decide) (by decide)⟩

/-! ## Trap-path characterization (C1) and overflow (C8) -/

/-- Claim C1: for every path equal to `/dev` or starting with `/dev/` whose
combined length with the configured root stays below the buffer limit, the
trapper returns the shadow path `<root><path>` iff a root is configured, the
`<root>/disabled` marker does not exist, and the shadow path exists; in
every other case (root unset, marker present, or shadow absent) it returns
the original path unchanged. -/
theorem trap_path_dev_spec (fs : CPath → Bool) (path : CPath)
    (hdev : devSlash.isPrefixOf path = true ∨ path = devRoot) :
    trap_path none fs path = TrapResult.pass ∧
    ∀ pre : CPath, path.length + pre.length < bufSize →
      trap_path (some pre) fs path =
        (if fs (pre ++ disabledName) = false ∧ fs (pre ++ path) = true
         then TrapResult.redirected (pre ++ path)
         else TrapResult.pass) := by
  constructor
  · simp [trap_path]
  · intro pre hlen
    have hcond : (devSlash.isPrefixOf path || path == devRoot) = true := by
      rcases hdev with h | h
      · simp [h]
      · simp [h]
    have hlen2 : ¬ bufSize ≤ path.length + pre.length := Nat.not_le.mpr hlen
    cases hdis : fs (pre ++ disabledName) <;>
      cases hsh : fs (pre ++ path) <;>
        simp [trap_path, hcond, trap_path_core, hlen2, hdis, hsh]

/-- Witness for C1: root `/r`, a filesystem where exactly `/r/dev/x` exists,
path `/dev/x` gets redirected to `/r/dev/x`. -/
theorem trap_path_dev_spec_witness :
    (devSlash.isPrefixOf (devSlashS.data ++ [Char.ofNat 120]) = true ∨
       devSlashS.data ++ [Char.ofNat 120] = devRoot) ∧
    (devSlashS.data ++ [Char.ofNat 120]).length
        + (String.data "/r").length < bufSize ∧
    trap_path (some (String.data "/r"))
        (fun q => q == String.data "/r" ++ (devSlashS.data ++ [Char.ofNat 120]))
        (devSlashS.data ++ [Char.ofNat 120]) =
      (if (fun (q : CPath) =>
            q == String.data "/r" ++ (devSlashS.data ++ [Char.ofNat 120]))
              (String.data "/r" ++ disabledName) = false ∧
          (fun (q : CPath) =>
            q == String.data "/r" ++ (devSlashS.data ++ [Char.ofNat 120]))
              (String.data "/r" ++ (devSlashS.data ++ [Char.ofNat 120])) = true
       then TrapResult.redirected
              (String.data "/r" ++ (devSlashS.data ++ [Char.ofNat 120]))
       else TrapResult.pass) :=
  ⟨Or.inl (by decide), by decide,
   (trap_path_dev_spec
      (fun q => q == String.data "/r" ++ (devSlashS.data ++ [Char.ofNat 120]))
      (devSlashS.data ++ [Char.ofNat 120]) (Or.inl (by decide))).2
     (String.data "/r") (by decide)⟩

/-- Claim C8: for every `/dev` or `/sys` path whose combined length with the
configured root reaches the shadow-path buffer size, `trap_path` fails with
the name-too-long condition, and every interposed call built on it returns
its failure value with `errno = ENAMETOOLONG` instead of truncating. -/
theorem trap_path_too_long (fs : CPath → Bool) (path pre : CPath)
    (hsub : devSlash.isPrefixOf path = true ∨ path = devRoot ∨
            sysSlash.isPrefixOf path = true ∨ path = sysRoot)
    (hlen : bufSize ≤ path.length + pre.length) :
    trap_path (some pre) fs path = TrapResult.errTooLong ∧
    ∀ (failret : Int) (realCall : CPath → Int × Nat),
      wrap_call (some pre) fs path failret realCall
        = (failret, ENAMETOOLONG) := by
  have htrap : trap_path (some pre) fs path = TrapResult.errTooLong := by
    by_cases hc1 : (devSlash.isPrefixOf path || path == devRoot) = true
    · simp [trap_path, hc1, trap_path_core, hlen]
    · have hsys : sysSlash.isPrefixOf path = true ∨ path = sysRoot := by
        rcases hsub with h | h | h | h
        · exact absurd (by simp [h]) hc1
        · exact absurd (by simp [h]) hc1
        · exact Or.inl h
        · exact Or.inr h
      have hc2 : (!(sysSlash.isPrefixOf path) && !(path == sysRoot)) = false := by
        rcases hsys with h | h
        · simp [h]
        · simp [h]
      have hc2n : ¬((!(sysSlash.isPrefixOf path) && !(path == sysRoot)) = true) := by
        rw [hc2]
        exact Bool.false_ne_true
      show trap_path (some pre) fs path = TrapResult.errTooLong
      rw [show trap_path (some pre) fs path =
            (if devSlash.isPrefixOf path || path == devRoot then
               trap_path_core pre fs path true
             else if !(sysSlash.isPrefixOf path) && !(path == sysRoot) then
               TrapResult.pass
             else trap_path_core pre fs path false) from rfl]
      rw [if_neg hc1, if_neg hc2n]
      simp [trap_path_core, hlen]
  refine ⟨htrap, ?_⟩
  intro failret realCall
  simp [wrap_call, htrap]

/-- Witness for C8: path `/dev` with a root of 8200 characters. -/
theorem trap_path_too_long_witness :
    (devSlash.isPrefixOf devRoot = true ∨ devRoot = devRoot ∨
       sysSlash.isPrefixOf devRoot = true ∨ devRoot = sysRoot) ∧
    bufSize ≤ devRoot.length + (List.replicate 8200 (Char.ofNat 97)).length ∧
    trap_path (some (List.replicate 8200 (Char.ofNat 97))) (fun _ => false)
        devRoot = TrapResult.errTooLong ∧
    wrap_call (some (List.replicate 8200 (Char.ofNat 97))) (fun _ => false)
        devRoot (-1) (fun _ => (0, 0)) = (-1, ENAMETOOLONG) := by
  have hsub : devSlash.isPrefixOf devRoot = true ∨ devRoot = devRoot ∨
      sysSlash.isPrefixOf devRoot = true ∨ devRoot = sysRoot :=
    Or.inr (Or.inl rfl)
  have hlen : bufSize ≤
      devRoot.length + (List.replicate 8200 (Char.ofNat 97)).length := by
    have h1 : devRoot.length = 4 := rfl
    have h2 : (List.replicate 8200 (Char.ofNat 97)).length = 8200 :=
      List.length_replicate 8200 (Char.ofNat 97)
    rw [h1, h2]
    decide
  have h := trap_path_too_long (fun _ => false) devRoot
    (List.replicate 8200 (Char.ofNat 97)) hsub hlen
  exact ⟨hsub, hlen, h.1, h.2 (-1) (fun _ => (0, 0))⟩

/-! ## Ioctl emulation and replay (C2)

The replay tree itself lives in the external `ioctl_tree` collaborator
(`ioctl_tree.h`, not part of this repository's preload source). -/

/-- Modelled from the spec: a recorded node of the external ioctl replay
tree — a previously observed `(request, argument-bytes, result)` triple. -/
structure IoctlNode where
  request : Nat
  arg : List Nat
  result : Int
deriving DecidableEq

/-- Modelled from the spec: the external replay tree as the ordered sequence
of recorded nodes, with a cursor that is either none (fresh descriptor) or
the index of the last matched node. -/
abbrev IoctlTree := List IoctlNode

/-- Modelled from the spec: `execute(tree, cursor, request, arg) ->
(new_cursor, result)`; the `(request, arg)` pair is matched against the tree
at the descriptor's current cursor, `none` being the no-match sentinel that
leaves the result at the caller's `-2`. -/
def ioctl_tree_execute (tree : IoctlTree) (last : Option Nat)
    (request : Nat) (arg : List Nat) : Option (Nat × Int) :=
  let i := match last with
           | none => 0
           | some j => j + 1
  match tree.get? i with
  | some node =>
      if node.request = request ∧ node.arg = arg then some (i, node.result)
      else none
  | none => none

/-- Per-descriptor ioctl state (`struct ioctl_fd_info`, lines 349-352). -/
structure IoctlFdInfo where
  tree : IoctlTree
  last : Option Nat
deriving DecidableEq

/-- `ioctl_emulate` (lines 385-401): consult the tree of a registered
descriptor; on a match advance the cursor and take the recorded result,
otherwise leave the result at the `-2` "unhandled" sentinel. -/
def ioctl_emulate (fdinfo : Option IoctlFdInfo) (request : Nat)
    (arg : List Nat) : Option IoctlFdInfo × Int :=
  match fdinfo with
  | none => (none, -2)
  | some info =>
      match ioctl_tree_execute info.tree info.last request arg with
      | some (c, r) => (some { info with last := some c }, r)
      | none => (some info, -2)

/-- The interposed `ioctl` entry point (lines 409-430).  `fdinfo` is the
registry payload for descriptor `d` (none if unregistered), `realRet` the
return of the real ioctl if invoked, `record_fd` the global
`ioctl_record_fd`.  Returns (result, whether the real ioctl was invoked, the
updated descriptor state, whether a node was recorded). -/
def ioctl_wrap (d : Int) (fdinfo : Option IoctlFdInfo) (request : Nat)
    (arg : List Nat) (realRet : Int) (record_fd : Int) :
    Int × Bool × Option IoctlFdInfo × Bool :=
  match ioctl_emulate fdinfo request arg with
  | (info2, res) =>
      if res ≠ -2 then (res, false, info2, false)
      else (realRet, true, info2, realRet != -1 && record_fd == d)

/-- Claim C2: a `(request, arg)` pair matching the loaded tree at the
descriptor's cursor makes `ioctl` return the recorded result without
invoking the real ioctl, advancing the cursor to the matched node; an
unmatched pair invokes the real ioctl and returns its result.  (The recorded
result is assumed distinct from the in-band `-2` sentinel, which no real
ioctl return ever takes.) -/
theorem ioctl_replay_spec (d : Int) (info : IoctlFdInfo) (request : Nat)
    (arg : List Nat) (realRet : Int) (record_fd : Int) :
    (∀ c z, ioctl_tree_execute info.tree info.last request arg = some (c, z) →
       z ≠ -2 →
       ioctl_wrap d (some info) request arg realRet record_fd
         = (z, false, some { info with last := some c }, false)) ∧
    (ioctl_tree_execute info.tree info.last request arg = none →
       ioctl_wrap d (some info) request arg realRet record_fd
         = (realRet, true, some info, realRet != -1 && record_fd == d)) := by
  constructor
  · intro c z hexec hz
    simp [ioctl_wrap, ioctl_emulate, hexec, hz]
  · intro hexec
    simp [ioctl_wrap, ioctl_emulate, hexec]

/-- Witness for C2: a one-node tree replays `(5, [1, 2]) -> 9` without the
real call; an unmatched request `6` falls through to the real ioctl. -/
theorem ioctl_replay_spec_witness :
    (ioctl_tree_execute [IoctlNode.mk 5 [1, 2] 9] none 5 [1, 2]
        = some (0, 9) ∧
     (9 : Int) ≠ -2 ∧
     ioctl_wrap 3 (some (IoctlFdInfo.mk [IoctlNode.mk 5 [1, 2] 9] none))
        5 [1, 2] 0 (-1)
        = (9, false,
           some (IoctlFdInfo.mk [IoctlNode.mk 5 [1, 2] 9] (some 0)), false)) ∧
    (ioctl_tree_execute [IoctlNode.mk 5 [1, 2] 9] none 6 [1, 2] = none ∧
     ioctl_wrap 3 (some (IoctlFdInfo.mk [IoctlNode.mk 5 [1, 2] 9] none))
        6 [1, 2] 7 (-1)
        = (7, true,
           some (IoctlFdInfo.mk [IoctlNode.mk 5 [1, 2] 9] none),
           (7 : Int) != -1 && (-1 : Int) == 3)) :=
  ⟨⟨by decide, by decide,
    (ioctl_replay_spec 3 (IoctlFdInfo.mk [IoctlNode.mk 5 [1, 2] 9] none)
        5 [1, 2] 0 (-1)).1 0 9 (by decide) (by decide)⟩,
   ⟨by decide,
    (ioctl_replay_spec 3 (IoctlFdInfo.mk [IoctlNode.mk 5 [1, 2] 9] none)
        6 [1, 2] 7 (-1)).2 (by decide)⟩⟩

/-! ## Netlink recvmsg faking (C6) -/

/-- `AF_NETLINK`. -/
def AF_NETLINK : Nat := 16

/-- The sender address view written through `msg->msg_name`. -/
structure SockaddrNl where
  family : Nat
  pid : Nat
  groups : Nat
deriving DecidableEq

/-- The parts of `struct msghdr` the wrapper touches: the sender address,
its reported length, and the uid of the first ancillary credentials block
when one is present. -/
structure MsgHdr where
  name : SockaddrNl
  namelen : Nat
  credUid : Option Nat
deriving DecidableEq

/-- The forged kernel sender: netlink family, pid 0, the udev-monitor
multicast group 2 (lines 226-230). -/
def fake_nl_sender : SockaddrNl :=
  { family := AF_NETLINK, pid := 0, groups := 2 }

/-- The interposed `recvmsg` (lines 211-240).  `wrapped` is whether the
descriptor sits in `wrapped_sockets`; `ret` and `m` are the return value and
message of the real `recvmsg`.  `sizeof(sender)` with `sender` a pointer is
8 on 64-bit, hence the reported namelen. -/
def recvmsg_wrap (wrapped : Bool) (ret : Int) (m : MsgHdr) : Int × MsgHdr :=
  if wrapped = true ∧ 0 < ret then
    (ret, { name := fake_nl_sender,
            namelen := 8,
            credUid := m.credUid.map (fun _ => 0) })
  else (ret, m)

/-- Claim C6: on a wrapped netlink-emulation descriptor whose real receive
returns bytes, the sender address is overwritten to netlink family, pid 0,
multicast group 2, and an ancillary credentials block, when present, is
overwritten to uid 0, regardless of the real sender; non-wrapped descriptors
and failed receives pass through unmodified. -/
theorem recvmsg_fake_sender_spec (wrapped : Bool) (ret : Int) (m : MsgHdr) :
    (wrapped = true → 0 < ret →
       (recvmsg_wrap wrapped ret m).1 = ret ∧
       (recvmsg_wrap wrapped ret m).2.name = fake_nl_sender ∧
       (recvmsg_wrap wrapped ret m).2.credUid
         = m.credUid.map (fun _ => 0)) ∧
    (wrapped = false ∨ ret ≤ 0 → recvmsg_wrap wrapped ret m = (ret, m)) := by
  constructor
  · intro hw hr
    simp [recvmsg_wrap, hw, hr]
  · intro h
    rcases h with h | h
    · simp [recvmsg_wrap, h]
    · have : ¬ (0 : Int) < ret := Int.not_lt.mpr h
      simp [recvmsg_wrap, this]

/-- Witness for C6: a wrapped descriptor receiving 12 bytes from a real
unix sender with uid 1000 is reported as coming from the kernel netlink
group 2 with uid 0; an unwrapped descriptor passes through. -/
theorem recvmsg_fake_sender_spec_witness :
    (true = true ∧ (0 : Int) < 12 ∧
     (recvmsg_wrap true 12 (MsgHdr.mk (SockaddrNl.mk 1 4321 0) 110
        (some 1000))).1 = 12 ∧
     (recvmsg_wrap true 12 (MsgHdr.mk (SockaddrNl.mk 1 4321 0) 110
        (some 1000))).2.name = fake_nl_sender ∧
     (recvmsg_wrap true 12 (MsgHdr.mk (SockaddrNl.mk 1 4321 0) 110
        (some 1000))).2.credUid = (some 1000).map (fun _ => 0)) ∧
    (false = false ∧
     recvmsg_wrap false 12 (MsgHdr.mk (SockaddrNl.mk 1 4321 0) 110
        (some 1000))
       = (12, MsgHdr.mk (SockaddrNl.mk 1 4321 0) 110 (some 1000))) := by
  have h1 := (recvmsg_fake_sender_spec true 12
      (MsgHdr.mk (SockaddrNl.mk 1 4321 0) 110 (some 1000))).1
      rfl (by decide)
  have h2 := (recvmsg_fake_sender_spec false 12
      (MsgHdr.mk (SockaddrNl.mk 1 4321 0) 110 (some 1000))).2
      (Or.inl rfl)
  exact ⟨⟨rfl, by decide, h1.1, h1.2.1, h1.2.2⟩, ⟨rfl, h2⟩⟩

/-! ## Global ioctl recording state (C9) -/

/-- The ioctl-recording environment variables consuled by
`ioctl_record_open` (lines 253-311): `UMOCKDEV_IOCTL_RECORD_DEV`,
`UMOCKDEV_IOCTL_RECORD_FILE` and `UMOCKDEV_DIR`; `existing_tree` models
whether `ioctl_tree_read` on a pre-existing record file yields a tree. -/
structure RecEnv where
  record_dev : Option Nat
  record_file : Option CPath
  dir : Option CPath
  existing_tree : Bool

/-- The process-wide recording state: the lazily initialized `record_rdev`
static (none = not yet read from the environment, some 0 = not recording),
the active `ioctl_record_fd` (-1 = none), whether `ioctl_record_log` is
open, whether `ioctl_record` (the accumulated tree) is non-null, and how
often the log has been flushed by `ioctl_record_close`. -/
structure RecordState where
  cache : Option Nat
  record_fd : Int
  log_open : Bool
  tree_nonnull : Bool
  flushes : Nat
deriving DecidableEq

/-- Process termination (`exit(1)`) versus a surviving state. -/
inductive RecOutcome where
  | ok : RecordState → RecOutcome
  | fatal : RecOutcome
deriving DecidableEq

/-- `ioctl_record_close` (lines 313-323): if anything was recorded, truncate
and rewrite the log; modelled as bumping the flush counter. -/
def ioctl_record_close (st : RecordState) : RecordState :=
  if st.tree_nonnull then { st with flushes := st.flushes + 1 } else st

/-- `ioctl_record_open` (lines 253-311).  `devOf fd` models `dev_of_fd`.
The overlap check for an already-active recording descriptor (lines 282-287)
is present in the source only as a comment, so an open matching the target
device unconditionally overwrites `ioctl_record_fd`. -/
def ioctl_record_open (env : RecEnv) (devOf : Int → Nat) (st : RecordState)
    (fd : Int) : RecOutcome :=
  if fd < 0 then RecOutcome.ok st
  else
    let rdev := match st.cache with
                | some r => r
                | none => match env.record_dev with
                          | some d => d
                          | none => 0
    let st1 := { st with cache := some rdev }
    if rdev = 0 then RecOutcome.ok st1
    else if devOf fd ≠ rdev then RecOutcome.ok st1
    else
      let st2 := { st1 with record_fd := fd }
      if st2.log_open then RecOutcome.ok st2
      else match env.record_file with
           | none => RecOutcome.fatal
           | some _ =>
               if env.dir ≠ none then RecOutcome.fatal
               else RecOutcome.ok { st2 with log_open := true,
                                             tree_nonnull := env.existing_tree }

/-- Claim C9: while a recording session is active (a non-negative
`ioctl_record_fd` with the log already open), a subsequent open of a file
whose device number equals the recording target reassigns the active
recording descriptor to the new fd without closing or flushing the previous
session — the resulting state differs only in `record_fd`, keeping the log
open, the tree, and the flush count; no operation enforces the
one-descriptor-at-a-time invariant. -/
theorem ioctl_record_open_reassigns (env : RecEnv) (devOf : Int → Nat)
    (st : RecordState) (fd1 fd2 : Int) (d : Nat)
    (hactive : st.record_fd = fd1) (hfd1 : 0 ≤ fd1)
    (hlog : st.log_open = true) (hcache : st.cache = some d) (hd : d ≠ 0)
    (hfd2 : 0 ≤ fd2) (hdev : devOf fd2 = d) :
    ioctl_record_open env devOf st fd2
      = RecOutcome.ok { st with record_fd := fd2 } ∧
    ({ st with record_fd := fd2 } : RecordState).log_open = true ∧
    ({ st with record_fd := fd2 } : RecordState).flushes = st.flushes ∧
    ({ st with record_fd := fd2 } : RecordState).tree_nonnull
      = st.tree_nonnull := by
  refine ⟨?_, hlog, rfl, rfl⟩
  have hneg : ¬ fd2 < 0 := Int.not_lt.mpr hfd2
  simp only [ioctl_record_open, hcache, hneg, if_false]
  rw [if_neg hd, if_neg (fun h => h hdev), if_pos hlog]

/-- Witness for C9: a session active on fd 4 for target device 300 is
silently reassigned to fd 9 by a second matching open. -/
theorem ioctl_record_open_reassigns_witness :
    ((RecordState.mk (some 300) 4 true true 0).record_fd = 4 ∧
     (0 : Int) ≤ 4 ∧
     (RecordState.mk (some 300) 4 true true 0).log_open = true ∧
     (RecordState.mk (some 300) 4 true true 0).cache = some 300 ∧
     (300 : Nat) ≠ 0 ∧ (0 : Int) ≤ 9 ∧
     (fun (_ : Int) => (300 : Nat)) 9 = 300) ∧
    ioctl_record_open (RecEnv.mk (some 300) none none false)
        (fun _ => 300) (RecordState.mk (some 300) 4 true true 0) 9
      = RecOutcome.ok (RecordState.mk (some 300) 9 true true 0) :=
  ⟨⟨rfl, by decide, rfl, rfl, by decide, by decide, rfl⟩,
   (ioctl_record_open_reassigns (RecEnv.mk (some 300) none none false)
      (fun _ => 300) (RecordState.mk (some 300) 4 true true 0) 4 9 300
      rfl (by decide) rfl rfl (by decide) (by decide) rfl).1⟩

/-! ## Stat mode bits and errno-transparent probes (C10) -/

/-- `S_IFMT`. -/
def S_IFMT : Nat := 61440

/-- `S_IFREG` (bit 15). -/
def S_IFREG : Nat := 32768

/-- `S_IFDIR`. -/
def S_IFDIR : Nat := 16384

/-- `S_IFLNK`. -/
def S_IFLNK : Nat := 40960

/-- `S_IFCHR`. -/
def S_IFCHR : Nat := 8192

/-- `S_IFBLK`. -/
def S_IFBLK : Nat := 24576

/-- `S_ISVTX`, the sticky bit (bit 9). -/
def S_ISVTX : Nat := 512

/-- All bits of a 32-bit `mode_t`; `~x` on `mode_t` is `mask32 ^^^ x`. -/
def mask32 : Nat := 4294967295

/-- `S_ISLNK`. -/
def S_ISLNK (m : Nat) : Bool := m &&& S_IFMT == S_IFLNK

/-- `S_ISDIR`. -/
def S_ISDIR (m : Nat) : Bool := m &&& S_IFMT == S_IFDIR

/-- `S_ISCHR`. -/
def S_ISCHR (m : Nat) : Bool := m &&& S_IFMT == S_IFCHR

/-- `S_ISBLK`. -/
def S_ISBLK (m : Nat) : Bool := m &&& S_IFMT == S_IFBLK

/-- `path_exists` (lines 591-600) at the errno level: save errno, run the
real `access` (an oracle that may clobber errno arbitrarily), restore errno,
return the access result.  The `fs` predicate used by `trap_path` above
abstracts `path_exists(p) == 0`. -/
def path_exists (accessCall : Nat → Int × Nat) (errno0 : Nat) : Int × Nat :=
  match accessCall errno0 with
  | (res, _e1) => (res, errno0)

/-- `dev_of_fd` (lines 82-96): save errno, `fstat` (an oracle returning its
result, the errno it leaves, and the stat mode and rdev), restore errno,
then return the rdev for char/block devices and 0 otherwise. -/
def dev_of_fd (fstatCall : Nat → Int × Nat × Nat × Nat) (errno0 : Nat) :
    Nat × Nat :=
  match fstatCall errno0 with
  | (ret, _e1, mode, rdev) =>
      if ret < 0 then (0, errno0)
      else if S_ISCHR mode || S_ISBLK mode then (rdev, errno0)
      else (0, errno0)

/-- The `<root>/dev/.node/` side-channel directory. -/
def nodeDirS : String := "/dev/.node/"

/-- `nodeDirS` as bytes. -/
def nodeDir : CPath := nodeDirS.data

/-- Replace every `/` by `_` (lines 695-698). -/
def underscore_slashes (p : CPath) : CPath :=
  p.map (fun c => if c = Char.ofNat 47 then Char.ofNat 95 else c)

/-- glibc `makedev`. -/
def gnu_makedev (mjr mnr : Nat) : Nat :=
  ((mjr &&& 4294963200) <<< 32) ||| ((mjr &&& 4095) <<< 8) |||
    ((mnr &&& 4294967040) <<< 12) ||| (mnr &&& 255)

/-- `get_rdev` (lines 683-714): build
`<root>/dev/.node/<nodename with slashes underscored>`, read that symlink
(an oracle returning an optional target and the errno it leaves), restore
errno, and parse `major:minor` (the `sscanf`, modelled as a pure parsing
oracle); any failure yields device number 0. -/
def get_rdev (root : CPath) (readlinkCall : CPath → Nat → Option CPath × Nat)
    (scan : CPath → Option (Nat × Nat)) (nodename : CPath) (errno0 : Nat) :
    Nat × Nat :=
  match readlinkCall (root ++ nodeDir ++ underscore_slashes nodename) errno0 with
  | (none, _e1) => (0, errno0)
  | (some link, _e1) =>
      match scan link with
      | none => (0, errno0)
      | some (mjr, mnr) => (gnu_makedev mjr mnr, errno0)

/-- Claim C10: the internal probes — the existence check `path_exists`, the
device-number lookup `dev_of_fd`, and the `.node` rdev resolution
`get_rdev` — leave the caller-visible errno unchanged, for every behavior of
the underlying real call, including failing ones. -/
theorem probes_preserve_errno (accessCall : Nat → Int × Nat)
    (fstatCall : Nat → Int × Nat × Nat × Nat) (root : CPath)
    (readlinkCall : CPath → Nat → Option CPath × Nat)
    (scan : CPath → Option (Nat × Nat)) (nodename : CPath) (e0 : Nat) :
    (path_exists accessCall e0).2 = e0 ∧
    (dev_of_fd fstatCall e0).2 = e0 ∧
    (get_rdev root readlinkCall scan nodename e0).2 = e0 := by
  refine ⟨?_, ?_, ?_⟩
  · rcases h : accessCall e0 with ⟨res, e1⟩
    simp [path_exists, h]
  · rcases h : fstatCall e0 with ⟨ret, e1, mode, rdev⟩
    simp only [dev_of_fd, h]
    split_ifs <;> rfl
  · unfold get_rdev
    split
    · rfl
    · split
      · rfl
      · rfl

/-! ## Device node classification (C3) -/

/-- The stat fields the wrapper rewrites. -/
structure StatBuf where
  st_mode : Nat
  st_rdev : Nat
deriving DecidableEq

/-- `is_emulated_device` (lines 716-736): a symlink counts as an emulated
device only if its target (read through the `readlinkTgt` oracle, asserted
to succeed in the C code) begins with `/dev/`; any other non-directory
counts as emulated. -/
def is_emulated_device (readlinkTgt : CPath → CPath) (path : CPath)
    (st_mode : Nat) : Bool :=
  if S_ISLNK st_mode then devSlash.isPrefixOf (readlinkTgt path)
  else !(S_ISDIR st_mode)

/-- The mode rewrite of `WRAP_VERSTAT` (lines 755-762): clear `S_IFREG`;
then if the sticky bit is set, clear it and set `S_IFBLK`, else set
`S_IFCHR`.  `&= ~X` on a 32-bit `mode_t` is `&&& (mask32 ^^^ X)`. -/
def classifyMode (m : Nat) : Nat :=
  if (m &&& (mask32 ^^^ S_IFREG)) &&& S_ISVTX ≠ 0 then
    ((m &&& (mask32 ^^^ S_IFREG)) &&& (mask32 ^^^ S_ISVTX)) ||| S_IFBLK
  else (m &&& (mask32 ^^^ S_IFREG)) ||| S_IFCHR

/-- The `WRAP_VERSTAT` wrapper body (lines 741-766): trap the path, run the
real stat (an oracle; `none` is a failing call), and on success for a
redirected `/dev` path classified as an emulated device rewrite the mode
and recover `st_rdev` through the `.node` side channel. -/
def xstat_wrap (root : Option CPath) (fs : CPath → Bool)
    (realStat : CPath → Option StatBuf) (readlinkTgt : CPath → CPath)
    (readlinkNode : CPath → Nat → Option CPath × Nat)
    (scan : CPath → Option (Nat × Nat)) (path : CPath) :
    Int × Option StatBuf :=
  match trap_path root fs path with
  | TrapResult.errTooLong => (-1, none)
  | TrapResult.pass =>
      match realStat path with
      | none => (-1, none)
      | some st => (0, some st)
  | TrapResult.redirected p =>
      match realStat p with
      | none => (-1, none)
      | some st =>
          if devSlash.isPrefixOf path
              && is_emulated_device readlinkTgt p st.st_mode then
            (0, some { st_mode := classifyMode st.st_mode,
                       st_rdev :=
                         match root with
                         | some pre =>
                             (get_rdev pre readlinkNode scan (path.drop 5) 0).1
                         | none => 0 })
          else (0, some st)

/-- A conjunction with a single-bit mask is zero iff that bit is clear. -/
lemma land_two_pow_eq_zero_iff (x k : Nat) :
    x &&& 2 ^ k = 0 ↔ x.testBit k = false := by
  constructor
  · intro h
    have h2 := congrArg (fun y => Nat.testBit y k) h
    simp only [Nat.testBit_land, Nat.testBit_two_pow_self, Bool.and_true,
      Nat.zero_testBit] at h2
    exact h2
  · intro h
    apply Nat.eq_of_testBit_eq
    intro i
    rw [Nat.testBit_land, Nat.zero_testBit]
    by_cases hik : k = i
    · subst hik
      rw [h, Bool.false_and]
    · rw [Nat.testBit_two_pow_of_ne hik, Bool.and_false]

/-- Oring a mask in and then conjoining with it yields the mask. -/
lemma lor_land_self (x b : Nat) : (x ||| b) &&& b = b := by
  apply Nat.eq_of_testBit_eq
  intro i
  rw [Nat.testBit_land, Nat.testBit_lor]
  cases hb : b.testBit i
  · rw [Bool.or_false, Bool.and_false]
  · rw [Bool.or_true, Bool.true_and]

/-- Clearing `S_IFREG` does not touch the sticky bit. -/
lemma vtx_unchanged_by_reg_clear (m : Nat) :
    (m &&& (mask32 ^^^ S_IFREG)) &&& S_ISVTX = m &&& S_ISVTX := by
  apply Nat.eq_of_testBit_eq
  intro i
  rw [Nat.testBit_land, Nat.testBit_land, Nat.testBit_land]
  by_cases h : i = 9
  · subst h
    have hc : (mask32 ^^^ S_IFREG).testBit 9 = true := by decide
    rw [hc, Bool.and_true]
  · have hv : S_ISVTX.testBit i = false := by
      rw [show S_ISVTX = 2 ^ 9 from by decide]
      exact Nat.testBit_two_pow_of_ne (fun hk => h hk.symm)
    rw [hv, Bool.and_false, Bool.and_false]

/-- The classified mode always has the regular-file type bit cleared. -/
lemma classifyMode_reg_clear (m : Nat) : classifyMode m &&& S_IFREG = 0 := by
  rw [show S_IFREG = 2 ^ 15 from by decide, land_two_pow_eq_zero_iff]
  unfold classifyMode
  have hc1 : (mask32 ^^^ S_IFREG).testBit 15 = false := by decide
  have hc2 : S_IFBLK.testBit 15 = false := by decide
  have hc3 : S_IFCHR.testBit 15 = false := by decide
  have hc4 : (mask32 ^^^ S_ISVTX).testBit 15 = true := by decide
  split_ifs
  · rw [Nat.testBit_lor, Nat.testBit_land, Nat.testBit_land, hc1, hc2, hc4,
      Bool.and_false, Bool.false_and, Bool.false_or]
  · rw [Nat.testBit_lor, Nat.testBit_land, hc1, hc3, Bool.and_false,
      Bool.false_or]

/-- With the sticky bit set, classification clears it and sets `S_IFBLK`. -/
lemma classifyMode_sticky (m : Nat) (h : m &&& S_ISVTX ≠ 0) :
    classifyMode m &&& S_ISVTX = 0 ∧
    classifyMode m &&& S_IFBLK = S_IFBLK := by
  have hcond : (m &&& (mask32 ^^^ S_IFREG)) &&& S_ISVTX ≠ 0 := by
    rw [vtx_unchanged_by_reg_clear]
    exact h
  unfold classifyMode
  rw [if_pos hcond]
  constructor
  · rw [show S_ISVTX = 2 ^ 9 from by decide, land_two_pow_eq_zero_iff]
    have h1 : (mask32 ^^^ (2 ^ 9 : Nat)).testBit 9 = false := by decide
    have h2 : S_IFBLK.testBit 9 = false := by decide
    rw [Nat.testBit_lor, Nat.testBit_land, h1, h2, Bool.and_false,
      Bool.false_or]
  · exact lor_land_self _ _

/-- Without the sticky bit, classification sets `S_IFCHR`. -/
lemma classifyMode_nosticky (m : Nat) (h : m &&& S_ISVTX = 0) :
    classifyMode m &&& S_IFCHR = S_IFCHR := by
  have hcond : ¬ ((m &&& (mask32 ^^^ S_IFREG)) &&& S_ISVTX ≠ 0) := by
    rw [vtx_unchanged_by_reg_clear, h]
    exact fun hn => hn rfl
  unfold classifyMode
  rw [if_neg hcond]
  exact lor_land_self _ _

/-- Claim C3: a successful stat of a `/dev` path that was actually
redirected to a shadow file classified as an emulated device reports a mode
with the regular-file type bit cleared; if the sticky bit was set it is
cleared and the block-device type bit set, otherwise the char-device type
bit is set. -/
theorem stat_dev_classify_spec (fs : CPath → Bool)
    (realStat : CPath → Option StatBuf) (readlinkTgt : CPath → CPath)
    (readlinkNode : CPath → Nat → Option CPath × Nat)
    (scan : CPath → Option (Nat × Nat)) (pre path : CPath) (st : StatBuf)
    (htrap : trap_path (some pre) fs path
      = TrapResult.redirected (pre ++ path))
    (hdev : devSlash.isPrefixOf path = true)
    (hstat : realStat (pre ++ path) = some st)
    (hemul : is_emulated_device readlinkTgt (pre ++ path) st.st_mode
      = true) :
    xstat_wrap (some pre) fs realStat readlinkTgt readlinkNode scan path
      = (0, some (StatBuf.mk (classifyMode st.st_mode)
          ((get_rdev pre readlinkNode scan (path.drop 5) 0).1))) ∧
    classifyMode st.st_mode &&& S_IFREG = 0 ∧
    (st.st_mode &&& S_ISVTX ≠ 0 →
       classifyMode st.st_mode &&& S_ISVTX = 0 ∧
       classifyMode st.st_mode &&& S_IFBLK = S_IFBLK) ∧
    (st.st_mode &&& S_ISVTX = 0 →
       classifyMode st.st_mode &&& S_IFCHR = S_IFCHR) := by
  refine ⟨?_, classifyMode_reg_clear _, classifyMode_sticky _,
    classifyMode_nosticky _⟩
  unfold xstat_wrap
  rw [htrap]
  simp only [hstat, hdev, hemul, Bool.and_self, if_true, Bool.true_and,
    if_pos]

/-- Witness for C3: root `/r`, path `/dev/x`, a plain regular file mode
`0o100644` (33188) in the shadow tree is reported as a char device. -/
theorem stat_dev_classify_spec_witness :
    (trap_path (some (String.data "/r"))
        (fun q => q == String.data "/r" ++ devSlashS.data ++ [Char.ofNat 120])
        (devSlashS.data ++ [Char.ofNat 120])
      = TrapResult.redirected
          (String.data "/r" ++ (devSlashS.data ++ [Char.ofNat 120])) ∧
     devSlash.isPrefixOf (devSlashS.data ++ [Char.ofNat 120]) = true ∧
     is_emulated_device (fun _ => [])
        (String.data "/r" ++ (devSlashS.data ++ [Char.ofNat 120])) 33188
       = true) ∧
    (xstat_wrap (some (String.data "/r"))
        (fun q => q == String.data "/r" ++ devSlashS.data ++ [Char.ofNat 120])
        (fun q => if q == String.data "/r" ++ devSlashS.data ++ [Char.ofNat 120]
                  then some (StatBuf.mk 33188 0) else none)
        (fun _ => []) (fun _ _ => (none, 0)) (fun _ => none)
        (devSlashS.data ++ [Char.ofNat 120])
      = (0, some (StatBuf.mk (classifyMode 33188)
          ((get_rdev (String.data "/r") (fun _ _ => (none, 0)) (fun _ => none)
              ((devSlashS.data ++ [Char.ofNat 120]).drop 5) 0).1))) ∧
     classifyMode 33188 &&& S_IFCHR = S_IFCHR) := by
  have h := stat_dev_classify_spec
    (fun q => q == String.data "/r" ++ devSlashS.data ++ [Char.ofNat 120])
    (fun q => if q == String.data "/r" ++ devSlashS.data ++ [Char.ofNat 120]
              then some (StatBuf.mk 33188 0) else none)
    (fun _ => []) (fun _ _ => (none, 0)) (fun _ => none)
    (String.data "/r") (devSlashS.data ++ [Char.ofNat 120])
    (StatBuf.mk 33188 0) (by decide) (by decide) (by decide) (by decide)
  exact ⟨⟨by decide, by decide, by decide⟩,
    ⟨h.1, h.2.2.2 (by decide)⟩⟩

/-! ## Script recording: headers and coalescing (C5) -/

/-- Script recorder per-descriptor state (`struct script_record_info`,
lines 442-446): the kind of the last operation (0 none, 114 read,
119 write) and the `CLOCK_MONOTONIC` time of the last operation as
`(tv_sec, tv_nsec)`. -/
structure ScriptState where
  op : Nat
  time : Int × Int
deriving DecidableEq

/-- `update_msec` (lines 526-537): elapsed milliseconds between the stored
time and now. -/
def update_msec (tm now : Int × Int) : Int :=
  (now.1 - tm.1) * 1000 + now.2 / 1000000 - tm.2 / 1000000

/-- The record header `"<kind> <elapsed-ms> "` produced by
`snprintf(header, ..., "%c %lu ", op, delta)`, as bytes. -/
def headerBytes (op delta : Nat) : List Nat :=
  op :: 32 :: ((Nat.toDigits 10 delta).map Char.toNat ++ [32])

/-- `script_record_op` (lines 539-583) for a recorded descriptor: a
non-positive size records nothing (sizes below zero cannot arise in the
list model and behave like zero in the C code); otherwise compute the
elapsed time, emit a newline-terminated new header when the delta is
non-zero or the kind changed (no newline before the very first record),
and append the escaped bytes.  Returns the updated state and the emitted
bytes. -/
def script_record_op (st : ScriptState) (op : Nat) (bs : List Nat)
    (now : Int × Int) : ScriptState × List Nat :=
  if bs.length = 0 then (st, [])
  else
    (ScriptState.mk op now,
     (if 0 < (update_msec st.time now).toNat ∨ st.op ≠ op then
        (if st.op ≠ 0 then [10] else [])
          ++ headerBytes op (update_msec st.time now).toNat
      else []) ++ escapeBytes bs)

/-- No escaped record body ever contains the newline byte: control bytes
are escaped to printable ones, so record boundaries are exactly the emitted
newlines. -/
lemma newline_not_mem_escapeBytes : ∀ bs : List Nat,
    (10 : Nat) ∉ escapeBytes bs := by
  intro bs
  induction bs with
  | nil => simp [escapeBytes]
  | cons b rest ih =>
      simp only [escapeBytes, List.mem_append]
      rintro (h | h)
      · unfold escapeByte at h
        split_ifs at h with h1 h2
        · simp only [List.mem_cons, List.not_mem_nil, or_false] at h
          rcases h with h | h <;> omega
        · simp only [List.mem_cons, List.not_mem_nil, or_false] at h
          rcases h with h | h <;> omega
        · simp only [List.mem_cons, List.not_mem_nil, or_false] at h
          omega
      · exact ih h

/-- Claim C5: for every recorded operation with a positive byte count, a
new record header (preceded by a newline unless it is the first record on
the descriptor) is emitted iff the elapsed milliseconds are non-zero or the
operation kind differs from the previous one; otherwise the bytes are
appended to the current record with no intervening newline. -/
theorem script_record_header_spec (st : ScriptState) (op : Nat)
    (bs : List Nat) (now : Int × Int) (hbs : bs ≠ []) :
    (script_record_op st op bs now).1 = ScriptState.mk op now ∧
    ((update_msec st.time now).toNat ≠ 0 ∨ st.op ≠ op →
       (script_record_op st op bs now).2 =
         (if st.op ≠ 0 then [10] else [])
           ++ headerBytes op (update_msec st.time now).toNat
           ++ escapeBytes bs) ∧
    ((update_msec st.time now).toNat = 0 ∧ st.op = op →
       (script_record_op st op bs now).2 = escapeBytes bs ∧
       (10 : Nat) ∉ (script_record_op st op bs now).2) := by
  have hlen : ¬ bs.length = 0 := by
    simpa using hbs
  have hpos : script_record_op st op bs now =
      (ScriptState.mk op now,
       (if 0 < (update_msec st.time now).toNat ∨ st.op ≠ op then
          (if st.op ≠ 0 then [10] else [])
            ++ headerBytes op (update_msec st.time now).toNat
        else []) ++ escapeBytes bs) := by
    unfold script_record_op
    rw [if_neg hlen]
  refine ⟨?_, ?_, ?_⟩
  · rw [hpos]
  · intro h
    have hcond : 0 < (update_msec st.time now).toNat ∨ st.op ≠ op := by
      rcases h with h | h
      · exact Or.inl (Nat.pos_of_ne_zero h)
      · exact Or.inr h
    rw [hpos]
    show (if 0 < (update_msec st.time now).toNat ∨ st.op ≠ op then
            (if st.op ≠ 0 then [10] else [])
              ++ headerBytes op (update_msec st.time now).toNat
          else []) ++ escapeBytes bs = _
    rw [if_pos hcond, List.append_assoc]
  · rintro ⟨h1, h2⟩
    have hcond : ¬ (0 < (update_msec st.time now).toNat ∨ st.op ≠ op) := by
      rw [h1, h2]
      simp
    constructor
    · rw [hpos]
      show (if 0 < (update_msec st.time now).toNat ∨ st.op ≠ op then
              (if st.op ≠ 0 then [10] else [])
                ++ headerBytes op (update_msec st.time now).toNat
            else []) ++ escapeBytes bs = _
      rw [if_neg hcond, List.nil_append]
    · rw [hpos]
      show (10 : Nat) ∉ (if 0 < (update_msec st.time now).toNat ∨ st.op ≠ op
            then (if st.op ≠ 0 then [10] else [])
              ++ headerBytes op (update_msec st.time now).toNat
            else []) ++ escapeBytes bs
      rw [if_neg hcond, List.nil_append]
      exact newline_not_mem_escapeBytes bs

/-- Witness for C5: a write of `A` with zero elapsed time after a previous
write coalesces into the current record with no newline; a read issued at
the same instant after a write starts a new record with a newline and a
fresh header. -/
theorem script_record_header_spec_witness :
    (([65] : List Nat) ≠ [] ∧
     (update_msec (5, 0) (5, 0)).toNat = 0 ∧ (119 : Nat) = 119 ∧
     (script_record_op (ScriptState.mk 119 (5, 0)) 119 [65] (5, 0)).2
       = escapeBytes [65] ∧
     (10 : Nat) ∉
       (script_record_op (ScriptState.mk 119 (5, 0)) 119 [65] (5, 0)).2) ∧
    ((119 : Nat) ≠ 114 ∧
     (script_record_op (ScriptState.mk 119 (5, 0)) 114 [65] (5, 0)).2
       = (if (ScriptState.mk 119 (5, 0)).op ≠ 0 then [10] else [])
           ++ headerBytes 114 (update_msec (5, 0) (5, 0)).toNat
           ++ escapeBytes [65]) :=
  ⟨⟨by decide, by decide, rfl,
    ((script_record_header_spec (ScriptState.mk 119 (5, 0)) 119 [65] (5, 0)
        (by decide)).2.2 ⟨by decide, rfl⟩).1,
    ((script_record_header_spec (ScriptState.mk 119 (5, 0)) 119 [65] (5, 0)
        (by decide)).2.2 ⟨by decide, rfl⟩).2⟩,
   ⟨by decide,
    (script_record_header_spec (ScriptState.mk 119 (5, 0)) 114 [65] (5, 0)
        (by decide)).2.1 (Or.inr (by decide))⟩⟩
